import Mathlib

/-!
Verification development for the single-zone test-building generator
(src/src/lib.rs, `get_single_zone_test_building`).

The repository's own code is the builder in src/src/lib.rs; it is translated
below definition by definition.  The geometry library (`geometry3d`) and the
entity-storage library (`simple_model`) are external collaborators whose code
is not part of the repository; they are modelled from the specification:
loops, polygons and their areas from the spec's GeometryBuilder section, and
the entity tables from the spec's external-interface section (stable integer
handles returned by each `add_*` operation, as the spec's design notes ask).

The source's `Float` is `f64`; it is modelled as `ℝ`.  The source's panics
are modelled as `InvalidConfiguration` errors and the unwraps of geometry
results propagate `GeometryError`, following the spec's error-handling design.
All loops built by this program lie in the plane `y = 0`.
-/

noncomputable section

/-- A 3D point with real coordinates (the `geometry3d` point). -/
structure Point3D where
  x : ℝ
  y : ℝ
  z : ℝ

/-- Mirrors `Point3D::new(x, y, z)`. -/
def Point3D.new (x y z : ℝ) : Point3D := ⟨x, y, z⟩

/-- Consecutive cyclic pairs of a vertex list, closing back to `first`. -/
def cyclicPairsFrom (first : Point3D) : List Point3D → List (Point3D × Point3D)
  | [] => []
  | [p] => [(p, first)]
  | p :: q :: rest => (p, q) :: cyclicPairsFrom first (q :: rest)

/-- The cyclic edge list of a vertex list: each vertex paired with its
successor, the last one paired with the first. -/
def cyclicPairs : List Point3D → List (Point3D × Point3D)
  | [] => []
  | p :: rest => cyclicPairsFrom p (p :: rest)

/-- Modelled from the spec: the (signed, doubled) area of a planar loop.
Every loop this program builds lies in the plane `y = 0`, where the polygon
area is given by the shoelace formula on the `(x, z)` coordinates. -/
def shoelace (ps : List Point3D) : ℝ :=
  ((cyclicPairs ps).map fun ab => ab.1.x * ab.2.z - ab.2.x * ab.1.z).sum

/-- Modelled from the spec: a `geometry3d` Loop3D is an ordered sequence of
3D points forming a boundary, explicitly closed by `close`. -/
structure Loop3D where
  vertices : List Point3D
  closed : Bool

/-- Mirrors `Loop3D::new()`: an empty, open loop. -/
def Loop3D.new : Loop3D := ⟨[], false⟩

/-- Modelled from the spec: appending a point to a loop fails once the loop
has been closed. -/
def Loop3D.push (l : Loop3D) (p : Point3D) : Except String Loop3D :=
  if l.closed = true then Except.error "the loop is already closed"
  else Except.ok ⟨l.vertices ++ [p], false⟩

/-- Modelled from the spec: the area enclosed by a planar loop (absolute
value of half the shoelace sum, see `shoelace`). -/
def Loop3D.area (l : Loop3D) : ℝ := |shoelace l.vertices| / 2

open Classical in
/-- Modelled from the spec: closing a loop requires at least three points and
a non-zero enclosed area (a degenerate loop is rejected, fail-fast). -/
def Loop3D.close (l : Loop3D) : Except String Loop3D :=
  if 3 ≤ l.vertices.length ∧ shoelace l.vertices ≠ 0 then Except.ok ⟨l.vertices, true⟩
  else Except.error "the loop cannot be closed"

/-- The signed side of point `q` relative to the directed edge `a → b`, in
the `(x, z)` plane: positive iff `q` is strictly to the left of the edge. -/
def edgeSide (a b q : Point3D) : ℝ :=
  (b.x - a.x) * (q.z - a.z) - (b.z - a.z) * (q.x - a.x)

/-- Modelled from the spec: a point lies strictly inside a convex
counterclockwise loop iff it is strictly on the interior side of every
cyclic edge; touching or crossing the boundary fails this test. -/
def strictlyInside (q : Point3D) (l : Loop3D) : Prop :=
  ∀ ab ∈ cyclicPairs l.vertices, 0 < edgeSide ab.1 ab.2 q

/-- Modelled from the spec: a `geometry3d` Polygon3D is an outer loop plus
the loops of the holes cut from it. -/
structure Polygon3D where
  outer : Loop3D
  holes : List Loop3D

/-- Modelled from the spec: a polygon is made from a closed loop; an open
loop is rejected. -/
def Polygon3D.new (l : Loop3D) : Except String Polygon3D :=
  if l.closed = true then Except.ok ⟨l, []⟩
  else Except.error "the loop is not closed"

/-- Modelled from the spec: the area of a polygon is the area of its outer
loop minus the areas of the holes cut from it. -/
def Polygon3D.area (p : Polygon3D) : ℝ :=
  p.outer.area - (p.holes.map Loop3D.area).sum

open Classical in
/-- Modelled from the spec: cutting a hole requires a closed hole loop lying
strictly inside the outer loop, neither touching nor crossing its boundary;
otherwise the operation fails fatally. -/
def Polygon3D.cut_hole (p : Polygon3D) (hole : Loop3D) : Except String Polygon3D :=
  if hole.closed = true ∧ ∀ q ∈ hole.vertices, strictlyInside q p.outer then
    Except.ok ⟨p.outer, p.holes ++ [hole]⟩
  else Except.error "the hole is not strictly inside the outer loop"

/-- Mirrors the source's `TestMat`: a concrete or polyurethane layer of a
given thickness. -/
inductive TestMat where
  | Concrete (thickness : ℝ)
  | Polyurethane (thickness : ℝ)

/-- Mirrors the source's `SingleZoneTestBuildingOptions`. -/
structure SingleZoneTestBuildingOptions where
  zone_volume : ℝ
  construction : List TestMat
  surface_area : ℝ
  window_area : ℝ
  heating_power : ℝ
  lighting_power : ℝ
  infiltration_rate : ℝ
  emmisivity : ℝ

/-- Mirrors the source's `Default` impl for the options: negative sentinel
volume and area (they must fail validation), everything else disabled. -/
def SingleZoneTestBuildingOptions.default : SingleZoneTestBuildingOptions where
  zone_volume := -1
  construction := []
  surface_area := -1
  window_area := 0
  heating_power := 0
  lighting_power := 0
  infiltration_rate := 0
  emmisivity := 0.84

/-- Modelled from the spec: a constant-rate infiltration source. -/
inductive Infiltration where
  | Constant (rate : ℝ)

/-- Modelled from the spec: a thermal zone with a volume and an optional
infiltration source (`simple_model::Space`). -/
structure Space where
  name : String
  volume : Option ℝ := none
  infiltration : Option Infiltration := none

/-- Mirrors `Space::new(name)`. -/
def Space.new (name : String) : Space := { name := name }

/-- Mirrors `Space::set_volume`. -/
def Space.set_volume (s : Space) (v : ℝ) : Space := { s with volume := some v }

/-- Mirrors `Space::set_infiltration`. -/
def Space.set_infiltration (s : Space) (i : Infiltration) : Space :=
  { s with infiltration := some i }

/-- Modelled from the spec: the bulk thermal properties of a normal
substance (`simple_model::substance::Normal`), set field by field. -/
structure NormalSubstance where
  name : String
  density : Option ℝ := none
  specific_heat_capacity : Option ℝ := none
  thermal_conductivity : Option ℝ := none
  thermal_absorbtance : Option ℝ := none

/-- Mirrors `Normal::new(name)`. -/
def NormalSubstance.new (name : String) : NormalSubstance := { name := name }

/-- Mirrors `Normal::set_density`. -/
def NormalSubstance.set_density (s : NormalSubstance) (v : ℝ) : NormalSubstance :=
  { s with density := some v }

/-- Mirrors `Normal::set_specific_heat_capacity`. -/
def NormalSubstance.set_specific_heat_capacity (s : NormalSubstance) (v : ℝ) : NormalSubstance :=
  { s with specific_heat_capacity := some v }

/-- Mirrors `Normal::set_thermal_conductivity`. -/
def NormalSubstance.set_thermal_conductivity (s : NormalSubstance) (v : ℝ) : NormalSubstance :=
  { s with thermal_conductivity := some v }

/-- Mirrors `Normal::set_thermal_absorbtance`. -/
def NormalSubstance.set_thermal_absorbtance (s : NormalSubstance) (v : ℝ) : NormalSubstance :=
  { s with thermal_absorbtance := some v }

/-- Modelled from the spec: the substance kinds of the model library. -/
inductive Substance where
  | Normal (s : NormalSubstance)

/-- Mirrors `Normal::wrap`. -/
def NormalSubstance.wrap (s : NormalSubstance) : Substance := Substance.Normal s

/-- Modelled from the spec: a material is a named layer referencing one
shared substance (by its handle in the model's substance table) with a
thickness. -/
structure Material where
  name : String
  substance : Nat
  thickness : ℝ

/-- Mirrors `Material::new(name, substance, thickness)`. -/
def Material.new (name : String) (substance : Nat) (thickness : ℝ) : Material :=
  ⟨name, substance, thickness⟩

/-- Modelled from the spec: an ordered stack of materials, referenced by
their handles in the model's material table, exterior to interior. -/
structure Construction where
  name : String
  materials : List Nat := []

/-- Mirrors `Construction::new(name)`. -/
def Construction.new (name : String) : Construction := { name := name }

/-- Modelled from the spec: a boundary relation resolving to a space of the
model, by its stable handle. -/
inductive Boundary where
  | Space (space : Nat)

/-- Modelled from the spec: an opaque planar boundary element of a zone,
with its polygon, a construction handle and a front boundary. -/
structure Surface where
  name : String
  polygon : Polygon3D
  construction : Nat
  front_boundary : Option Boundary := none

/-- Mirrors `Surface::new(name, polygon, construction)`. -/
def Surface.new (name : String) (polygon : Polygon3D) (construction : Nat) : Surface :=
  { name := name, polygon := polygon, construction := construction }

/-- Mirrors `Surface::set_front_boundary`. -/
def Surface.set_front_boundary (s : Surface) (b : Boundary) : Surface :=
  { s with front_boundary := some b }

/-- Modelled from the spec: a fenestration's position kind (binary
open/closed here). -/
inductive FenestrationPositions where
  | Binary

/-- Modelled from the spec: the kind of a fenestration. -/
inductive FenestrationType where
  | Window

/-- Modelled from the spec: a transparent planar element occupying an
opening cut into a surface. -/
structure Fenestration where
  name : String
  polygon : Polygon3D
  construction : Nat
  positions : FenestrationPositions
  category : FenestrationType
  front_boundary : Option Boundary := none

/-- Mirrors `Fenestration::new(name, polygon, construction, positions, category)`. -/
def Fenestration.new (name : String) (polygon : Polygon3D) (construction : Nat)
    (positions : FenestrationPositions) (category : FenestrationType) : Fenestration :=
  { name := name, polygon := polygon, construction := construction,
    positions := positions, category := category }

/-- Mirrors `Fenestration::set_front_boundary`. -/
def Fenestration.set_front_boundary (f : Fenestration) (b : Boundary) : Fenestration :=
  { f with front_boundary := some b }

/-- Modelled from the spec: an electric heater load, with a target space and
a maximum power, both unset until the corresponding setter is called. -/
structure ElectricHeater where
  name : String
  target_space : Option Nat := none
  max_heating_power : Option ℝ := none

/-- Mirrors `ElectricHeater::new(name)`: no target, no maximum power yet. -/
def ElectricHeater.new (name : String) : ElectricHeater := { name := name }

/-- Mirrors `ElectricHeater::set_target_space` (the space's handle stands
for the shared reference). -/
def ElectricHeater.set_target_space (h : ElectricHeater) (s : Nat) : ElectricHeater :=
  { h with target_space := some s }

/-- Modelled from the spec: the HVAC kinds of the model library. -/
inductive HVAC where
  | ElectricHeater (h : ElectricHeater)

/-- Mirrors `ElectricHeater::wrap`. -/
def ElectricHeater.wrap (h : ElectricHeater) : HVAC := HVAC.ElectricHeater h

/-- Modelled from the spec: a luminaire load, with a maximum power and a
target space, both unset until the corresponding setter is called. -/
structure Luminaire where
  name : String
  max_power : Option ℝ := none
  target_space : Option Nat := none

/-- Mirrors `Luminaire::new(name)`. -/
def Luminaire.new (name : String) : Luminaire := { name := name }

/-- Mirrors `Luminaire::set_max_power`. -/
def Luminaire.set_max_power (l : Luminaire) (p : ℝ) : Luminaire :=
  { l with max_power := some p }

/-- Mirrors `Luminaire::set_target_space`. -/
def Luminaire.set_target_space (l : Luminaire) (s : Nat) : Luminaire :=
  { l with target_space := some s }

/-- Modelled from the spec: the auxiliary simulation-state registration
table returned beside the model; no claim constrains its contents. -/
structure SimulationStateHeader where

/-- Mirrors `SimulationStateHeader::new()`. -/
def SimulationStateHeader.new : SimulationStateHeader := ⟨⟩

/-- Modelled from the spec: the entity tables of `simple_model::SimpleModel`.
Entities are stored in arrival order; each `add_*` operation returns the
stable handle (the index) of the entity it registered, standing for the
shared reference-counted pointer of the original library. -/
structure SimpleModel where
  name : String
  spaces : List Space := []
  substances : List Substance := []
  materials : List Material := []
  constructions : List Construction := []
  surfaces : List Surface := []
  fenestrations : List Fenestration := []
  hvacs : List HVAC := []
  luminaires : List Luminaire := []

/-- Mirrors `SimpleModel::new(name)`. -/
def SimpleModel.new (name : String) : SimpleModel := { name := name }

/-- Mirrors `SimpleModel::add_space`: registers the space, returns its handle. -/
def SimpleModel.add_space (m : SimpleModel) (s : Space) : SimpleModel × Nat :=
  ({ m with spaces := m.spaces ++ [s] }, m.spaces.length)

/-- Mirrors `SimpleModel::add_substance`. -/
def SimpleModel.add_substance (m : SimpleModel) (s : Substance) : SimpleModel × Nat :=
  ({ m with substances := m.substances ++ [s] }, m.substances.length)

/-- Mirrors `SimpleModel::add_material`. -/
def SimpleModel.add_material (m : SimpleModel) (mat : Material) : SimpleModel × Nat :=
  ({ m with materials := m.materials ++ [mat] }, m.materials.length)

/-- Mirrors `SimpleModel::add_construction`. -/
def SimpleModel.add_construction (m : SimpleModel) (c : Construction) : SimpleModel × Nat :=
  ({ m with constructions := m.constructions ++ [c] }, m.constructions.length)

/-- Mirrors `SimpleModel::add_surface`. -/
def SimpleModel.add_surface (m : SimpleModel) (s : Surface) : SimpleModel × Nat :=
  ({ m with surfaces := m.surfaces ++ [s] }, m.surfaces.length)

/-- Mirrors `SimpleModel::add_fenestration(fen, header)`. -/
def SimpleModel.add_fenestration (m : SimpleModel) (f : Fenestration)
    (header : SimulationStateHeader) : SimpleModel × SimulationStateHeader :=
  ({ m with fenestrations := m.fenestrations ++ [f] }, header)

/-- Mirrors `SimpleModel::add_hvac(hvac, header)`. -/
def SimpleModel.add_hvac (m : SimpleModel) (h : HVAC)
    (header : SimulationStateHeader) : SimpleModel × SimulationStateHeader :=
  ({ m with hvacs := m.hvacs ++ [h] }, header)

/-- Mirrors `SimpleModel::add_luminaire(luminaire, header)`. -/
def SimpleModel.add_luminaire (m : SimpleModel) (l : Luminaire)
    (header : SimulationStateHeader) : SimpleModel × SimulationStateHeader :=
  ({ m with luminaires := m.luminaires ++ [l] }, header)

/-- The two error kinds of the spec's error-handling design: the source's
panics become `InvalidConfiguration`, failed geometry unwraps become
`GeometryError`. -/
inductive BuildError where
  | InvalidConfiguration (message : String)
  | GeometryError (message : String)

/-- The source's `.unwrap()` on a geometry result: a geometry failure aborts
the assembly as a `GeometryError`. -/
def unwrapGeometry {α : Type} : Except String α → Except BuildError α
  | Except.ok a => Except.ok a
  | Except.error e => Except.error (BuildError.GeometryError e)

/-- The body of the source's `for (i, c) in options.construction.iter().enumerate()`
loop: creates a material per (index, layer) entry — concrete layers reference
the concrete substance handle, polyurethane layers the polyurethane handle —
registers it, and collects the handles in input order. -/
def addMaterials (concrete polyurethane : Nat) :
    SimpleModel → List (Nat × TestMat) → SimpleModel × List Nat
  | model, [] => (model, [])
  | model, (i, c) :: rest =>
    let material :=
      match c with
      | TestMat.Concrete thickness =>
        Material.new ("Material " ++ toString i) concrete thickness
      | TestMat.Polyurethane thickness =>
        Material.new ("Material " ++ toString i) polyurethane thickness
    let step := model.add_material material
    let next := addMaterials concrete polyurethane step.1 rest
    (next.1, step.2 :: next.2)

/-- Mirrors the source's `add_heater`: asserts a positive power, creates an
electric heater targeting the model's first space and registers it.  The
source never sets the heater's maximum power. -/
def add_heater (model : SimpleModel) (options : SingleZoneTestBuildingOptions)
    (header : SimulationStateHeader) : Except BuildError (SimpleModel × SimulationStateHeader) := do
  let power := options.heating_power
  if ¬ (0 < power) then
    throw (BuildError.InvalidConfiguration "assertion failed: power > 0.")
  if model.spaces.isEmpty then
    throw (BuildError.InvalidConfiguration "index out of bounds: the model has no space")
  let hvac := ElectricHeater.new "some hvac"
  let hvac := hvac.set_target_space 0
  return model.add_hvac hvac.wrap header

/-- Mirrors the source's `add_luminaire`: asserts a positive power, creates a
luminaire with that maximum power targeting the model's first space and
registers it. -/
def add_luminaire (model : SimpleModel) (options : SingleZoneTestBuildingOptions)
    (header : SimulationStateHeader) : Except BuildError (SimpleModel × SimulationStateHeader) := do
  let power := options.lighting_power
  if ¬ (0 < power) then
    throw (BuildError.InvalidConfiguration "assertion failed: power > 0.")
  if model.spaces.isEmpty then
    throw (BuildError.InvalidConfiguration "index out of bounds: the model has no space")
  let luminaire := Luminaire.new "the luminaire"
  let luminaire := luminaire.set_max_power power
  let luminaire := luminaire.set_target_space 0
  return model.add_luminaire luminaire header

/-- Translated from the source's `get_single_zone_test_building`: a single
space model with a single south-facing surface and (optionally) one operable
window sharing the wall's construction.  The `surface_area` includes the
window; the window loop is cut from the wall polygon as a hole.  Source
panics are `InvalidConfiguration` errors; geometry unwraps propagate
`GeometryError`. -/
def get_single_zone_test_building (options : SingleZoneTestBuildingOptions) :
    Except BuildError (SimpleModel × SimulationStateHeader) := do
  let model := SimpleModel.new "The SimpleModel"
  let header := SimulationStateHeader.new
  -- ADD THE SPACE
  let zone_volume := options.zone_volume
  if zone_volume ≤ 0 then
    throw (BuildError.InvalidConfiguration "A positive zone_volume parameter is required (Float)")
  let space := Space.new "Some space"
  let space := space.set_volume zone_volume
  -- ADD INFILTRATION, IF NEEDED
  let space ←
    if 0 < options.infiltration_rate then do
      let infiltration_rate := options.infiltration_rate
      if ¬ (0 < infiltration_rate) then
        throw (BuildError.InvalidConfiguration "assertion failed: infiltration_rate > 0.")
      pure (space.set_infiltration (Infiltration.Constant infiltration_rate))
    else
      pure space
  let added_space := model.add_space space
  let model := added_space.1
  let space := added_space.2
  -- ADD THE SUBSTANCE
  let concrete := NormalSubstance.new "concrete"
  let concrete :=
    (((concrete.set_density 1700).set_specific_heat_capacity 800).set_thermal_conductivity
      0.816).set_thermal_absorbtance options.emmisivity
  let added_concrete := model.add_substance concrete.wrap
  let model := added_concrete.1
  let concrete := added_concrete.2
  let polyurethane := NormalSubstance.new "polyurethane"
  let polyurethane :=
    (((polyurethane.set_density 17.5).set_specific_heat_capacity 2400).set_thermal_conductivity
      0.0252).set_thermal_absorbtance options.emmisivity
  let added_polyurethane := model.add_substance polyurethane.wrap
  let model := added_polyurethane.1
  let polyurethane := added_polyurethane.2
  -- ADD THE MATERIAL AND CONSTRUCTION
  let construction := Construction.new "the construction"
  let looped := addMaterials concrete polyurethane model options.construction.enum
  let model := looped.1
  let construction := { construction with materials := looped.2 }
  let added_construction := model.add_construction construction
  let model := added_construction.1
  let construction := added_construction.2
  -- SURFACE GEOMETRY: the wall
  let surface_area := options.surface_area
  if surface_area ≤ 0 then
    throw (BuildError.InvalidConfiguration "A positive surface_area option is needed (Float)")
  let l := Real.sqrt (surface_area / 4)
  let the_loop := Loop3D.new
  let the_loop ← unwrapGeometry (the_loop.push (Point3D.new (-l) 0 0))
  let the_loop ← unwrapGeometry (the_loop.push (Point3D.new l 0 0))
  let the_loop ← unwrapGeometry (the_loop.push (Point3D.new l 0 (l * 2)))
  let the_loop ← unwrapGeometry (the_loop.push (Point3D.new (-l) 0 (l * 2)))
  let the_loop ← unwrapGeometry the_loop.close
  let p ← unwrapGeometry (Polygon3D.new the_loop)
  -- The window... if there is any
  let cut ←
    if 0 < options.window_area then do
      if surface_area ≤ options.window_area then
        throw (BuildError.InvalidConfiguration "Win_area >= Surface_area")
      let l := Real.sqrt (options.window_area / 4)
      let the_inner_loop := Loop3D.new
      let the_inner_loop ← unwrapGeometry (the_inner_loop.push (Point3D.new (-l) 0 (l / 2)))
      let the_inner_loop ← unwrapGeometry (the_inner_loop.push (Point3D.new l 0 (l / 2)))
      let the_inner_loop ← unwrapGeometry (the_inner_loop.push (Point3D.new l 0 (3 * l / 2)))
      let the_inner_loop ← unwrapGeometry (the_inner_loop.push (Point3D.new (-l) 0 (3 * l / 2)))
      let the_inner_loop ← unwrapGeometry the_inner_loop.close
      let p ← unwrapGeometry (p.cut_hole the_inner_loop)
      let window_polygon ← unwrapGeometry (Polygon3D.new the_inner_loop)
      pure (p, some window_polygon)
    else
      pure (p, (none : Option Polygon3D))
  let p := cut.1
  let window_polygon := cut.2
  -- ACTUAL SURFACES
  let surface := Surface.new "Surface" p construction
  let surface := surface.set_front_boundary (Boundary.Space space)
  let model := (model.add_surface surface).1
  let withWindow ←
    match window_polygon with
    | some window_polygon => do
      let fenestration :=
        Fenestration.new "window one" window_polygon construction
          FenestrationPositions.Binary FenestrationType.Window
      let fenestration := fenestration.set_front_boundary (Boundary.Space space)
      pure (model.add_fenestration fenestration header)
    | none => pure (model, header)
  let model := withWindow.1
  let header := withWindow.2
  -- ADD HEATER, IF NEEDED
  let heated ←
    if 0 < options.heating_power then
      add_heater model options header
    else
      pure (model, header)
  let model := heated.1
  let header := heated.2
  -- ADD LIGHTS, IF NEEDED
  let lit ←
    if 0 < options.lighting_power then
      add_luminaire model options header
    else
      pure (model, header)
  let model := lit.1
  let header := lit.2
  return (model, header)

end

noncomputable section

/-! ## Expected results of a successful build -/

/-- The wall loop the builder constructs for half-side `l`: an axis-aligned
rectangle in the plane `y = 0`, `x` from `-l` to `l`, `z` from `0` to `2 l`,
counterclockwise, closed. -/
def wallLoop (l : ℝ) : Loop3D :=
  ⟨[Point3D.new (-l) 0 0, Point3D.new l 0 0, Point3D.new l 0 (l * 2),
    Point3D.new (-l) 0 (l * 2)], true⟩

/-- The window loop the builder constructs for half-width `w`: an
axis-aligned rectangle in the plane `y = 0`, `x` from `-w` to `w`, `z` from
`w / 2` to `3 w / 2`, counterclockwise, closed. -/
def windowLoop (w : ℝ) : Loop3D :=
  ⟨[Point3D.new (-w) 0 (w / 2), Point3D.new w 0 (w / 2), Point3D.new w 0 (3 * w / 2),
    Point3D.new (-w) 0 (3 * w / 2)], true⟩

/-- The wall's half-side: `sqrt (surface_area / 4)`. -/
def wallL (o : SingleZoneTestBuildingOptions) : ℝ := Real.sqrt (o.surface_area / 4)

/-- The window's half-width: `sqrt (window_area / 4)`. -/
def windowW (o : SingleZoneTestBuildingOptions) : ℝ := Real.sqrt (o.window_area / 4)

/-- The material the construction loop creates for one `(index, layer)`
entry, given the two substance handles. -/
def materialFor (concrete polyurethane : Nat) : Nat × TestMat → Material
  | (i, TestMat.Concrete thickness) =>
    Material.new ("Material " ++ toString i) concrete thickness
  | (i, TestMat.Polyurethane thickness) =>
    Material.new ("Material " ++ toString i) polyurethane thickness

/-- The space a successful build registers. -/
def spaceResult (o : SingleZoneTestBuildingOptions) : Space :=
  { name := "Some space", volume := some o.zone_volume,
    infiltration :=
      if 0 < o.infiltration_rate then some (Infiltration.Constant o.infiltration_rate)
      else none }

/-- The concrete substance a successful build registers (handle 0). -/
def concreteResult (o : SingleZoneTestBuildingOptions) : Substance :=
  Substance.Normal
    { name := "concrete", density := some 1700, specific_heat_capacity := some 800,
      thermal_conductivity := some 0.816, thermal_absorbtance := some o.emmisivity }

/-- The polyurethane substance a successful build registers (handle 1). -/
def polyurethaneResult (o : SingleZoneTestBuildingOptions) : Substance :=
  Substance.Normal
    { name := "polyurethane", density := some 17.5, specific_heat_capacity := some 2400,
      thermal_conductivity := some 0.0252, thermal_absorbtance := some o.emmisivity }

/-- The material table of a successful build: one material per configured
layer, in input order, concrete layers on handle 0, polyurethane on 1. -/
def materialsResult (o : SingleZoneTestBuildingOptions) : List Material :=
  o.construction.enum.map (materialFor 0 1)

/-- The construction of a successful build: material handles in input order. -/
def constructionResult (o : SingleZoneTestBuildingOptions) : Construction :=
  { name := "the construction", materials := List.range o.construction.length }

/-- The wall polygon before any hole is cut. -/
def wallPolygon (o : SingleZoneTestBuildingOptions) : Polygon3D := ⟨wallLoop (wallL o), []⟩

/-- The wall polygon once the window hole has been cut from it. -/
def holedWallPolygon (o : SingleZoneTestBuildingOptions) : Polygon3D :=
  ⟨wallLoop (wallL o), [windowLoop (windowW o)]⟩

/-- The window pane polygon (the inner loop as a polygon of its own). -/
def windowPane (o : SingleZoneTestBuildingOptions) : Polygon3D := ⟨windowLoop (windowW o), []⟩

/-- The surface a successful build registers, for a given wall polygon. -/
def surfaceResult (poly : Polygon3D) : Surface :=
  { name := "Surface", polygon := poly, construction := 0,
    front_boundary := some (Boundary.Space 0) }

/-- The fenestration a successful build with a window registers. -/
def fenestrationResult (o : SingleZoneTestBuildingOptions) : Fenestration :=
  { name := "window one", polygon := windowPane o, construction := 0,
    positions := FenestrationPositions.Binary, category := FenestrationType.Window,
    front_boundary := some (Boundary.Space 0) }

/-- The heater `add_heater` registers: target space 0, no maximum power set. -/
def heaterResult : HVAC :=
  HVAC.ElectricHeater { name := "some hvac", target_space := some 0, max_heating_power := none }

/-- The luminaire `add_luminaire` registers. -/
def luminaireResult (o : SingleZoneTestBuildingOptions) : Luminaire :=
  { name := "the luminaire", max_power := some o.lighting_power, target_space := some 0 }

/-- The model a successful build without a window returns. -/
def modelResultNoWindow (o : SingleZoneTestBuildingOptions) : SimpleModel :=
  { name := "The SimpleModel", spaces := [spaceResult o],
    substances := [concreteResult o, polyurethaneResult o],
    materials := materialsResult o, constructions := [constructionResult o],
    surfaces := [surfaceResult (wallPolygon o)], fenestrations := [],
    hvacs := if 0 < o.heating_power then [heaterResult] else [],
    luminaires := if 0 < o.lighting_power then [luminaireResult o] else [] }

/-- The model a successful build with a window returns. -/
def modelResultWindow (o : SingleZoneTestBuildingOptions) : SimpleModel :=
  { name := "The SimpleModel", spaces := [spaceResult o],
    substances := [concreteResult o, polyurethaneResult o],
    materials := materialsResult o, constructions := [constructionResult o],
    surfaces := [surfaceResult (holedWallPolygon o)],
    fenestrations := [fenestrationResult o],
    hvacs := if 0 < o.heating_power then [heaterResult] else [],
    luminaires := if 0 < o.lighting_power then [luminaireResult o] else [] }

end

/-! ## Monadic and geometric evaluation lemmas -/

@[simp] theorem ok_bind {ε α β : Type} (a : α) (f : α → Except ε β) :
    (Except.ok a >>= f) = f a := rfl

@[simp] theorem error_bind {ε α β : Type} (e : ε) (f : α → Except ε β) :
    ((Except.error e : Except ε α) >>= f) = Except.error e := rfl

@[simp] theorem pure_eq_ok {ε α : Type} (a : α) : (pure a : Except ε α) = Except.ok a := rfl

@[simp] theorem throw_eq_error {ε α : Type} (e : ε) :
    (throw e : Except ε α) = Except.error e := rfl

@[simp] theorem unwrapGeometry_ok {α : Type} (a : α) :
    unwrapGeometry (Except.ok a) = Except.ok a := rfl

@[simp] theorem unwrapGeometry_error {α : Type} (e : String) :
    unwrapGeometry (Except.error e : Except String α) =
      Except.error (BuildError.GeometryError e) := rfl

@[simp] theorem push_open (vs : List Point3D) (p : Point3D) :
    Loop3D.push ⟨vs, false⟩ p = Except.ok ⟨vs ++ [p], false⟩ := by
  simp [Loop3D.push]

theorem close_ok (vs : List Point3D) (h3 : 3 ≤ vs.length) (hne : shoelace vs ≠ 0) :
    Loop3D.close ⟨vs, false⟩ = Except.ok ⟨vs, true⟩ := by
  unfold Loop3D.close
  exact if_pos ⟨h3, hne⟩

@[simp] theorem polygon_new_closed (vs : List Point3D) :
    Polygon3D.new ⟨vs, true⟩ = Except.ok ⟨⟨vs, true⟩, []⟩ := by
  simp [Polygon3D.new]

theorem cut_hole_ok (outer : Loop3D) (holes : List Loop3D) (hole : Loop3D)
    (hc : hole.closed = true) (hin : ∀ q ∈ hole.vertices, strictlyInside q outer) :
    Polygon3D.cut_hole ⟨outer, holes⟩ hole = Except.ok ⟨outer, holes ++ [hole]⟩ := by
  unfold Polygon3D.cut_hole
  exact if_pos ⟨hc, hin⟩

theorem shoelace_wall (l : ℝ) : shoelace (wallLoop l).vertices = 8 * l ^ 2 := by
  simp [wallLoop, shoelace, cyclicPairs, cyclicPairsFrom, Point3D.new]
  ring

theorem shoelace_window (w : ℝ) : shoelace (windowLoop w).vertices = 4 * w ^ 2 := by
  simp [windowLoop, shoelace, cyclicPairs, cyclicPairsFrom, Point3D.new]
  ring

theorem wallLoop_area (l : ℝ) : (wallLoop l).area = 4 * l ^ 2 := by
  have h : (0 : ℝ) ≤ 8 * l ^ 2 := by positivity
  rw [Loop3D.area, shoelace_wall, abs_of_nonneg h]
  ring

theorem windowLoop_area (w : ℝ) : (windowLoop w).area = 2 * w ^ 2 := by
  have h : (0 : ℝ) ≤ 4 * w ^ 2 := by positivity
  rw [Loop3D.area, shoelace_window, abs_of_nonneg h]
  ring

theorem windowLoop_inside (w l : ℝ) (hw : 0 < w) (hwl : w < l) :
    ∀ q ∈ (windowLoop w).vertices, strictlyInside q (wallLoop l) := by
  have hl : 0 < l := hw.trans hwl
  intro q hq
  simp only [windowLoop, Point3D.new, List.mem_cons, List.not_mem_nil, or_false] at hq
  intro ab hab
  simp only [wallLoop, Point3D.new, cyclicPairs, cyclicPairsFrom, List.mem_cons,
    List.not_mem_nil, or_false] at hab
  rcases hq with rfl | rfl | rfl | rfl <;>
    rcases hab with rfl | rfl | rfl | rfl <;>
      simp only [edgeSide] <;> nlinarith

theorem addMaterials_eq (c p : Nat) :
    ∀ (l : List (Nat × TestMat)) (m : SimpleModel),
      addMaterials c p m l =
        ({ m with materials := m.materials ++ l.map (materialFor c p) },
          List.range' m.materials.length l.length)
  | [], m => by simp [addMaterials, List.range']
  | (i, mat) :: rest, m => by
    have ih := addMaterials_eq c p rest
    cases mat <;>
      simp [addMaterials, materialFor, SimpleModel.add_material, ih, List.range',
        Material.new, List.length_append]

theorem infiltration_branch (o : SingleZoneTestBuildingOptions) (space : Space) {β : Type}
    (k : Space → Except BuildError β) :
    ((if 0 < o.infiltration_rate then do
        let infiltration_rate := o.infiltration_rate
        if ¬ (0 < infiltration_rate) then
          throw (BuildError.InvalidConfiguration "assertion failed: infiltration_rate > 0.")
        pure (space.set_infiltration (Infiltration.Constant infiltration_rate))
      else
        pure space) >>= k)
    = k (if 0 < o.infiltration_rate then
          space.set_infiltration (Infiltration.Constant o.infiltration_rate)
        else space) := by
  split_ifs with hc
  · simp [hc]
  · simp

theorem heater_branch (o : SingleZoneTestBuildingOptions) (m : SimpleModel)
    (h : SimulationStateHeader) (hsp : m.spaces.isEmpty = false) {β : Type}
    (k : SimpleModel × SimulationStateHeader → Except BuildError β) :
    ((if 0 < o.heating_power then add_heater m o h else pure (m, h)) >>= k)
    = k ({ m with hvacs := m.hvacs ++ (if 0 < o.heating_power then [heaterResult] else []) },
        h) := by
  split_ifs with hc
  · simp [add_heater, hc, hsp, SimpleModel.add_hvac, ElectricHeater.new,
      ElectricHeater.set_target_space, ElectricHeater.wrap, heaterResult]
  · simp

theorem luminaire_branch (o : SingleZoneTestBuildingOptions) (m : SimpleModel)
    (h : SimulationStateHeader) (hsp : m.spaces.isEmpty = false) {β : Type}
    (k : SimpleModel × SimulationStateHeader → Except BuildError β) :
    ((if 0 < o.lighting_power then add_luminaire m o h else pure (m, h)) >>= k)
    = k ({ m with
            luminaires := m.luminaires ++ (if 0 < o.lighting_power then [luminaireResult o] else []) },
        h) := by
  split_ifs with hc
  · simp [add_luminaire, hc, hsp, SimpleModel.add_luminaire, Luminaire.new,
      Luminaire.set_max_power, Luminaire.set_target_space, luminaireResult]
  · simp

theorem build_eval_no_window (o : SingleZoneTestBuildingOptions)
    (hz : 0 < o.zone_volume) (hs : 0 < o.surface_area) (hw : o.window_area ≤ 0) :
    get_single_zone_test_building o =
      Except.ok (modelResultNoWindow o, SimulationStateHeader.new) := by
  have hz' : ¬ (o.zone_volume ≤ 0) := not_le.mpr hz
  have hs' : ¬ (o.surface_area ≤ 0) := not_le.mpr hs
  have hw' : ¬ (0 < o.window_area) := not_lt.mpr hw
  have hL : 0 < Real.sqrt (o.surface_area / 4) := Real.sqrt_pos.mpr (by linarith)
  have hclose :
      Loop3D.close (Loop3D.mk [Point3D.new (-(Real.sqrt (o.surface_area / 4))) 0 0, Point3D.new (Real.sqrt (o.surface_area / 4)) 0 0, Point3D.new (Real.sqrt (o.surface_area / 4)) 0 (Real.sqrt (o.surface_area / 4) * 2), Point3D.new (-(Real.sqrt (o.surface_area / 4))) 0 (Real.sqrt (o.surface_area / 4) * 2)] false)
      = Except.ok (Loop3D.mk [Point3D.new (-(Real.sqrt (o.surface_area / 4))) 0 0, Point3D.new (Real.sqrt (o.surface_area / 4)) 0 0, Point3D.new (Real.sqrt (o.surface_area / 4)) 0 (Real.sqrt (o.surface_area / 4) * 2), Point3D.new (-(Real.sqrt (o.surface_area / 4))) 0 (Real.sqrt (o.surface_area / 4) * 2)] true) := by
    refine close_ok _ (by norm_num) ?_
    show shoelace (wallLoop (Real.sqrt (o.surface_area / 4))).vertices ≠ 0
    rw [shoelace_wall]
    exact ne_of_gt (by nlinarith [pow_pos hL 2])
  by_cases hinf : 0 < o.infiltration_rate <;>
  by_cases hheat : 0 < o.heating_power <;>
  by_cases hlight : 0 < o.lighting_power <;>
  simp [get_single_zone_test_building, SimpleModel.new, SimulationStateHeader.new,
    hz', hs', hw', hinf, hheat, hlight, Space.new, Space.set_volume, Space.set_infiltration,
    SimpleModel.add_space, NormalSubstance.new, NormalSubstance.set_density,
    NormalSubstance.set_specific_heat_capacity, NormalSubstance.set_thermal_conductivity,
    NormalSubstance.set_thermal_absorbtance, NormalSubstance.wrap, SimpleModel.add_substance,
    Construction.new, addMaterials_eq, SimpleModel.add_construction, Loop3D.new,
    hclose, Surface.new, Surface.set_front_boundary, SimpleModel.add_surface,
    add_heater, add_luminaire, SimpleModel.add_hvac, SimpleModel.add_luminaire,
    ElectricHeater.new, ElectricHeater.set_target_space, ElectricHeater.wrap,
    Luminaire.new, Luminaire.set_max_power, Luminaire.set_target_space,
    modelResultNoWindow, spaceResult, concreteResult, polyurethaneResult, materialsResult,
    constructionResult, surfaceResult, wallPolygon, wallLoop, wallL, heaterResult,
    luminaireResult, List.range_eq_range', -Real.sqrt_div, -Real.sqrt_div']

theorem build_eval_window (o : SingleZoneTestBuildingOptions)
    (hz : 0 < o.zone_volume) (hs : 0 < o.surface_area)
    (hw0 : 0 < o.window_area) (hws : o.window_area < o.surface_area) :
    get_single_zone_test_building o =
      Except.ok (modelResultWindow o, SimulationStateHeader.new) := by
  have hz' : ¬ (o.zone_volume ≤ 0) := not_le.mpr hz
  have hs' : ¬ (o.surface_area ≤ 0) := not_le.mpr hs
  have hws' : ¬ (o.surface_area ≤ o.window_area) := not_le.mpr hws
  have hL : 0 < Real.sqrt (o.surface_area / 4) := Real.sqrt_pos.mpr (by linarith)
  have hW : 0 < Real.sqrt (o.window_area / 4) := Real.sqrt_pos.mpr (by linarith)
  have hWL : Real.sqrt (o.window_area / 4) < Real.sqrt (o.surface_area / 4) :=
    Real.sqrt_lt_sqrt (by linarith) (by linarith)
  have hclose :
      Loop3D.close (Loop3D.mk [Point3D.new (-(Real.sqrt (o.surface_area / 4))) 0 0, Point3D.new (Real.sqrt (o.surface_area / 4)) 0 0, Point3D.new (Real.sqrt (o.surface_area / 4)) 0 (Real.sqrt (o.surface_area / 4) * 2), Point3D.new (-(Real.sqrt (o.surface_area / 4))) 0 (Real.sqrt (o.surface_area / 4) * 2)] false)
      = Except.ok (Loop3D.mk [Point3D.new (-(Real.sqrt (o.surface_area / 4))) 0 0, Point3D.new (Real.sqrt (o.surface_area / 4)) 0 0, Point3D.new (Real.sqrt (o.surface_area / 4)) 0 (Real.sqrt (o.surface_area / 4) * 2), Point3D.new (-(Real.sqrt (o.surface_area / 4))) 0 (Real.sqrt (o.surface_area / 4) * 2)] true) := by
    refine close_ok _ (by norm_num) ?_
    show shoelace (wallLoop (Real.sqrt (o.surface_area / 4))).vertices ≠ 0
    rw [shoelace_wall]
    exact ne_of_gt (by nlinarith [pow_pos hL 2])
  have hcloseW :
      Loop3D.close (Loop3D.mk [Point3D.new (-(Real.sqrt (o.window_area / 4))) 0 (Real.sqrt (o.window_area / 4) / 2), Point3D.new (Real.sqrt (o.window_area / 4)) 0 (Real.sqrt (o.window_area / 4) / 2), Point3D.new (Real.sqrt (o.window_area / 4)) 0 (3 * Real.sqrt (o.window_area / 4) / 2), Point3D.new (-(Real.sqrt (o.window_area / 4))) 0 (3 * Real.sqrt (o.window_area / 4) / 2)] false)
      = Except.ok (Loop3D.mk [Point3D.new (-(Real.sqrt (o.window_area / 4))) 0 (Real.sqrt (o.window_area / 4) / 2), Point3D.new (Real.sqrt (o.window_area / 4)) 0 (Real.sqrt (o.window_area / 4) / 2), Point3D.new (Real.sqrt (o.window_area / 4)) 0 (3 * Real.sqrt (o.window_area / 4) / 2), Point3D.new (-(Real.sqrt (o.window_area / 4))) 0 (3 * Real.sqrt (o.window_area / 4) / 2)] true) := by
    refine close_ok _ (by norm_num) ?_
    show shoelace (windowLoop (Real.sqrt (o.window_area / 4))).vertices ≠ 0
    rw [shoelace_window]
    exact ne_of_gt (by nlinarith [pow_pos hW 2])
  have hcut :
      Polygon3D.cut_hole (Polygon3D.mk (Loop3D.mk [Point3D.new (-(Real.sqrt (o.surface_area / 4))) 0 0, Point3D.new (Real.sqrt (o.surface_area / 4)) 0 0, Point3D.new (Real.sqrt (o.surface_area / 4)) 0 (Real.sqrt (o.surface_area / 4) * 2), Point3D.new (-(Real.sqrt (o.surface_area / 4))) 0 (Real.sqrt (o.surface_area / 4) * 2)] true) [])
        (Loop3D.mk [Point3D.new (-(Real.sqrt (o.window_area / 4))) 0 (Real.sqrt (o.window_area / 4) / 2), Point3D.new (Real.sqrt (o.window_area / 4)) 0 (Real.sqrt (o.window_area / 4) / 2), Point3D.new (Real.sqrt (o.window_area / 4)) 0 (3 * Real.sqrt (o.window_area / 4) / 2), Point3D.new (-(Real.sqrt (o.window_area / 4))) 0 (3 * Real.sqrt (o.window_area / 4) / 2)] true)
      = Except.ok
          (Polygon3D.mk (Loop3D.mk [Point3D.new (-(Real.sqrt (o.surface_area / 4))) 0 0, Point3D.new (Real.sqrt (o.surface_area / 4)) 0 0, Point3D.new (Real.sqrt (o.surface_area / 4)) 0 (Real.sqrt (o.surface_area / 4) * 2), Point3D.new (-(Real.sqrt (o.surface_area / 4))) 0 (Real.sqrt (o.surface_area / 4) * 2)] true) [Loop3D.mk [Point3D.new (-(Real.sqrt (o.window_area / 4))) 0 (Real.sqrt (o.window_area / 4) / 2), Point3D.new (Real.sqrt (o.window_area / 4)) 0 (Real.sqrt (o.window_area / 4) / 2), Point3D.new (Real.sqrt (o.window_area / 4)) 0 (3 * Real.sqrt (o.window_area / 4) / 2), Point3D.new (-(Real.sqrt (o.window_area / 4))) 0 (3 * Real.sqrt (o.window_area / 4) / 2)] true]) := by
    refine cut_hole_ok _ _ _ rfl ?_
    exact windowLoop_inside (Real.sqrt (o.window_area / 4)) (Real.sqrt (o.surface_area / 4)) hW hWL
  by_cases hinf : 0 < o.infiltration_rate <;>
  by_cases hheat : 0 < o.heating_power <;>
  by_cases hlight : 0 < o.lighting_power <;>
  simp [get_single_zone_test_building, SimpleModel.new, SimulationStateHeader.new,
    hz', hs', hw0, hws', hinf, hheat, hlight, Space.new, Space.set_volume, Space.set_infiltration,
    SimpleModel.add_space, NormalSubstance.new, NormalSubstance.set_density,
    NormalSubstance.set_specific_heat_capacity, NormalSubstance.set_thermal_conductivity,
    NormalSubstance.set_thermal_absorbtance, NormalSubstance.wrap, SimpleModel.add_substance,
    Construction.new, addMaterials_eq, SimpleModel.add_construction, Loop3D.new,
    hclose, hcloseW, hcut, Surface.new, Surface.set_front_boundary, SimpleModel.add_surface,
    Fenestration.new, Fenestration.set_front_boundary, SimpleModel.add_fenestration,
    add_heater, add_luminaire, SimpleModel.add_hvac, SimpleModel.add_luminaire,
    ElectricHeater.new, ElectricHeater.set_target_space, ElectricHeater.wrap,
    Luminaire.new, Luminaire.set_max_power, Luminaire.set_target_space,
    modelResultWindow, spaceResult, concreteResult, polyurethaneResult, materialsResult,
    constructionResult, surfaceResult, fenestrationResult, windowPane, holedWallPolygon,
    wallPolygon, wallLoop, wallL, windowLoop, windowW, heaterResult,
    luminaireResult, List.range_eq_range', -Real.sqrt_div, -Real.sqrt_div']

theorem build_fail_zone_volume (o : SingleZoneTestBuildingOptions)
    (hz : o.zone_volume ≤ 0) :
    get_single_zone_test_building o =
      Except.error (BuildError.InvalidConfiguration
        "A positive zone_volume parameter is required (Float)") := by
  simp [get_single_zone_test_building, hz]

theorem build_fail_surface_area (o : SingleZoneTestBuildingOptions)
    (hz : 0 < o.zone_volume) (hsa : o.surface_area ≤ 0) :
    get_single_zone_test_building o =
      Except.error (BuildError.InvalidConfiguration
        "A positive surface_area option is needed (Float)") := by
  have hz' : ¬ (o.zone_volume ≤ 0) := not_le.mpr hz
  by_cases hinf : 0 < o.infiltration_rate <;>
  simp [get_single_zone_test_building, hz', hsa, hinf]

theorem build_fail_window_area (o : SingleZoneTestBuildingOptions)
    (hz : 0 < o.zone_volume) (hs : 0 < o.surface_area)
    (hw0 : 0 < o.window_area) (hws : o.surface_area ≤ o.window_area) :
    get_single_zone_test_building o =
      Except.error (BuildError.InvalidConfiguration "Win_area >= Surface_area") := by
  have hz' : ¬ (o.zone_volume ≤ 0) := not_le.mpr hz
  have hs' : ¬ (o.surface_area ≤ 0) := not_le.mpr hs
  have hL : 0 < Real.sqrt (o.surface_area / 4) := Real.sqrt_pos.mpr (by linarith)
  have hclose :
      Loop3D.close (Loop3D.mk [Point3D.new (-(Real.sqrt (o.surface_area / 4))) 0 0, Point3D.new (Real.sqrt (o.surface_area / 4)) 0 0, Point3D.new (Real.sqrt (o.surface_area / 4)) 0 (Real.sqrt (o.surface_area / 4) * 2), Point3D.new (-(Real.sqrt (o.surface_area / 4))) 0 (Real.sqrt (o.surface_area / 4) * 2)] false)
      = Except.ok (Loop3D.mk [Point3D.new (-(Real.sqrt (o.surface_area / 4))) 0 0, Point3D.new (Real.sqrt (o.surface_area / 4)) 0 0, Point3D.new (Real.sqrt (o.surface_area / 4)) 0 (Real.sqrt (o.surface_area / 4) * 2), Point3D.new (-(Real.sqrt (o.surface_area / 4))) 0 (Real.sqrt (o.surface_area / 4) * 2)] true) := by
    refine close_ok _ (by norm_num) ?_
    show shoelace (wallLoop (Real.sqrt (o.surface_area / 4))).vertices ≠ 0
    rw [shoelace_wall]
    exact ne_of_gt (by nlinarith [pow_pos hL 2])
  by_cases hinf : 0 < o.infiltration_rate <;>
  simp [get_single_zone_test_building, hz', hs', hw0, hws, hinf, Loop3D.new, hclose,
    -Real.sqrt_div, -Real.sqrt_div']

theorem wall_area_eq (o : SingleZoneTestBuildingOptions) (hs : 0 ≤ o.surface_area) :
    (wallLoop (wallL o)).area = o.surface_area := by
  rw [wallLoop_area, wallL, Real.sq_sqrt (by linarith)]
  ring

theorem window_area_eq (o : SingleZoneTestBuildingOptions) (hw : 0 ≤ o.window_area) :
    (windowLoop (windowW o)).area = o.window_area / 2 := by
  rw [windowLoop_area, windowW, Real.sq_sqrt (by linarith)]
  ring

theorem holedWall_area (o : SingleZoneTestBuildingOptions)
    (hs : 0 ≤ o.surface_area) (hw : 0 ≤ o.window_area) :
    (holedWallPolygon o).area = o.surface_area - o.window_area / 2 := by
  simp [holedWallPolygon, Polygon3D.area, wall_area_eq o hs]
  rw [window_area_eq o hw]

theorem windowPane_area (o : SingleZoneTestBuildingOptions) (hw : 0 ≤ o.window_area) :
    (windowPane o).area = o.window_area / 2 := by
  simp [windowPane, Polygon3D.area]
  rw [window_area_eq o hw]

/-! ## Concrete inputs -/

/-- The options of the repository's own test `test_with_window`:
volume 40, surface 4, window 1, a single concrete layer. -/
def testOptions : SingleZoneTestBuildingOptions :=
  { SingleZoneTestBuildingOptions.default with
      zone_volume := 40, surface_area := 4, window_area := 1,
      construction := [TestMat.Concrete 0.2] }

/-- Valid volume and surface, no window, an empty layer list (the default). -/
def noLayerOptions : SingleZoneTestBuildingOptions :=
  { SingleZoneTestBuildingOptions.default with zone_volume := 40, surface_area := 4 }

/-- The default options with only the window configured: the zone volume
keeps its negative sentinel. -/
def defaultWindowOptions : SingleZoneTestBuildingOptions :=
  { SingleZoneTestBuildingOptions.default with surface_area := 4, window_area := 1 }

/-- The test options with a 1500 W heater requested. -/
def heaterOptions : SingleZoneTestBuildingOptions :=
  { testOptions with heating_power := 1500 }

/-- The test options with heating disabled (power 0). -/
def noHeaterOptions : SingleZoneTestBuildingOptions :=
  { testOptions with heating_power := 0 }

/-- A three-layer construction: concrete, polyurethane, concrete. -/
def layeredOptions : SingleZoneTestBuildingOptions :=
  { testOptions with
      construction := [TestMat.Concrete 0.2, TestMat.Polyurethane 0.05, TestMat.Concrete 0.1] }

/-- Valid volume and surface; window, heating, lighting and infiltration all
given strictly negative values. -/
def negativeOptions : SingleZoneTestBuildingOptions :=
  { SingleZoneTestBuildingOptions.default with
      zone_volume := 40, surface_area := 4, window_area := -1,
      heating_power := -2, lighting_power := -3, infiltration_rate := -4 }

/-- A mixed-sign input: valid volume and surface, negative window, lighting
and infiltration, but a positive 1500 W heater request. -/
def mixedSignOptions : SingleZoneTestBuildingOptions :=
  { SingleZoneTestBuildingOptions.default with
      zone_volume := 40, surface_area := 4, window_area := -1,
      heating_power := 1500, lighting_power := -3, infiltration_rate := -4 }

/-! ## The claims -/

/-- C1 (amended: the builder also needs `0 < zone_volume` to succeed, see the
counterexample): for every configuration with a positive zone volume,
`surface_area > 0` and `0 < window_area < surface_area`, the builder succeeds
and the area of the wall polygon after the hole is cut plus the area of the
returned window-pane polygon equals `surface_area` — exactly, in the
real-number model of the floating-point source, hence within `1e-9`. -/
theorem C1_area_conservation (o : SingleZoneTestBuildingOptions)
    (hz : 0 < o.zone_volume) (hs : 0 < o.surface_area)
    (hw0 : 0 < o.window_area) (hws : o.window_area < o.surface_area) :
    ∃ m h s f, get_single_zone_test_building o = Except.ok (m, h) ∧
      m.surfaces = [s] ∧ m.fenestrations = [f] ∧
      s.polygon.area + f.polygon.area = o.surface_area ∧
      |s.polygon.area + f.polygon.area - o.surface_area| < 1e-9 := by
  refine ⟨modelResultWindow o, SimulationStateHeader.new,
    surfaceResult (holedWallPolygon o), fenestrationResult o,
    build_eval_window o hz hs hw0 hws, rfl, rfl, ?_, ?_⟩
  · show (holedWallPolygon o).area + (windowPane o).area = o.surface_area
    rw [holedWall_area o hs.le hw0.le, windowPane_area o hw0.le]
    ring
  · show |(holedWallPolygon o).area + (windowPane o).area - o.surface_area| < 1e-9
    rw [holedWall_area o hs.le hw0.le, windowPane_area o hw0.le]
    have e : o.surface_area - o.window_area / 2 + o.window_area / 2 - o.surface_area = 0 := by
      ring
    rw [e, abs_zero]
    norm_num

/-- Witness for C1 at the repository's own test input (volume 40, surface 4,
window 1). -/
theorem C1_area_conservation_witness :
    ∃ m h s f, get_single_zone_test_building testOptions = Except.ok (m, h) ∧
      m.surfaces = [s] ∧ m.fenestrations = [f] ∧
      s.polygon.area + f.polygon.area = testOptions.surface_area ∧
      |s.polygon.area + f.polygon.area - testOptions.surface_area| < 1e-9 :=
  C1_area_conservation testOptions
    (by norm_num [testOptions, SingleZoneTestBuildingOptions.default])
    (by norm_num [testOptions, SingleZoneTestBuildingOptions.default])
    (by norm_num [testOptions, SingleZoneTestBuildingOptions.default])
    (by norm_num [testOptions, SingleZoneTestBuildingOptions.default])

/-- C1 as stated is false: with the default options plus `surface_area = 4`
and `window_area = 1` every area hypothesis of the claim holds, yet the
builder fails (the default zone volume is the negative sentinel), so "the
builder succeeds" does not follow from the claim's hypotheses alone. -/
theorem C1_counterexample :
    0 < defaultWindowOptions.surface_area ∧ 0 < defaultWindowOptions.window_area ∧
    defaultWindowOptions.window_area < defaultWindowOptions.surface_area ∧
    ∀ m h, get_single_zone_test_building defaultWindowOptions ≠ Except.ok (m, h) := by
  refine ⟨by norm_num [defaultWindowOptions, SingleZoneTestBuildingOptions.default],
    by norm_num [defaultWindowOptions, SingleZoneTestBuildingOptions.default],
    by norm_num [defaultWindowOptions, SingleZoneTestBuildingOptions.default], ?_⟩
  intro m h
  rw [build_fail_zone_volume defaultWindowOptions
    (by norm_num [defaultWindowOptions, SingleZoneTestBuildingOptions.default])]
  simp

/-- C2 is a code bug: at the claim's input (zone volume 40, surface area 4,
window area 1) the build succeeds with one space of volume 40 and one
surface and one fenestration that share construction handle 0 and space
handle 0 — but the surface polygon's area is 3.5 and the window pane's 0.5,
not the claimed 3 and 1: the inner loop the source builds spans only half
the requested window area (height `l` instead of `2 l`), contradicting the
source's own doc comment that "the window_area is cut down" from the
surface. -/
theorem C2_window_area_evaluation :
    ∃ m h s f, get_single_zone_test_building testOptions = Except.ok (m, h) ∧
      m.spaces = [{ name := "Some space", volume := some 40, infiltration := none }] ∧
      m.surfaces = [s] ∧ m.fenestrations = [f] ∧
      s.polygon.area = 3.5 ∧ f.polygon.area = 0.5 ∧
      s.construction = 0 ∧ f.construction = 0 ∧ m.constructions.length = 1 ∧
      s.front_boundary = some (Boundary.Space 0) ∧
      f.front_boundary = some (Boundary.Space 0) := by
  refine ⟨modelResultWindow testOptions, SimulationStateHeader.new,
    surfaceResult (holedWallPolygon testOptions), fenestrationResult testOptions,
    build_eval_window testOptions
      (by norm_num [testOptions, SingleZoneTestBuildingOptions.default])
      (by norm_num [testOptions, SingleZoneTestBuildingOptions.default])
      (by norm_num [testOptions, SingleZoneTestBuildingOptions.default])
      (by norm_num [testOptions, SingleZoneTestBuildingOptions.default]),
    ?_, rfl, rfl, ?_, ?_, rfl, rfl, rfl, rfl, rfl⟩
  · norm_num [modelResultWindow, spaceResult, testOptions,
      SingleZoneTestBuildingOptions.default]
  · show (holedWallPolygon testOptions).area = 3.5
    rw [holedWall_area testOptions
      (by norm_num [testOptions, SingleZoneTestBuildingOptions.default])
      (by norm_num [testOptions, SingleZoneTestBuildingOptions.default])]
    norm_num [testOptions, SingleZoneTestBuildingOptions.default]
  · show (windowPane testOptions).area = 0.5
    rw [windowPane_area testOptions
      (by norm_num [testOptions, SingleZoneTestBuildingOptions.default])]
    norm_num [testOptions, SingleZoneTestBuildingOptions.default]

/-- C3 is a code bug: with `heating_power = 1500` the build succeeds with
exactly one heater targeting the sole space (handle 0), but the heater's
maximum power is unset (`none`), not 1500 — `add_heater` binds and asserts
the power yet never sets it, unlike `add_luminaire`; with
`heating_power = 0` no heater is created. -/
theorem C3_heater_evaluation :
    (∃ m h, get_single_zone_test_building heaterOptions = Except.ok (m, h) ∧
      m.hvacs = [HVAC.ElectricHeater
        { name := "some hvac", target_space := some 0, max_heating_power := none }]) ∧
    (∃ m h, get_single_zone_test_building noHeaterOptions = Except.ok (m, h) ∧
      m.hvacs = []) := by
  constructor
  · refine ⟨_, _, build_eval_window heaterOptions
      (by norm_num [heaterOptions, testOptions, SingleZoneTestBuildingOptions.default])
      (by norm_num [heaterOptions, testOptions, SingleZoneTestBuildingOptions.default])
      (by norm_num [heaterOptions, testOptions, SingleZoneTestBuildingOptions.default])
      (by norm_num [heaterOptions, testOptions, SingleZoneTestBuildingOptions.default]), ?_⟩
    norm_num [modelResultWindow, heaterResult, heaterOptions, testOptions,
      SingleZoneTestBuildingOptions.default]
  · refine ⟨_, _, build_eval_window noHeaterOptions
      (by norm_num [noHeaterOptions, testOptions, SingleZoneTestBuildingOptions.default])
      (by norm_num [noHeaterOptions, testOptions, SingleZoneTestBuildingOptions.default])
      (by norm_num [noHeaterOptions, testOptions, SingleZoneTestBuildingOptions.default])
      (by norm_num [noHeaterOptions, testOptions, SingleZoneTestBuildingOptions.default]), ?_⟩
    norm_num [modelResultWindow, noHeaterOptions, testOptions,
      SingleZoneTestBuildingOptions.default]

/-- C4: the builder fails exactly when `zone_volume ≤ 0`, or
`surface_area ≤ 0`, or a window is requested (`window_area > 0`) with
`window_area ≥ surface_area`; and every failure is an `InvalidConfiguration`
error carrying no model — the whole assembly aborts with no partial model. -/
theorem C4_failure_characterization (o : SingleZoneTestBuildingOptions) :
    ((∃ e, get_single_zone_test_building o = Except.error e) ↔
      (o.zone_volume ≤ 0 ∨ o.surface_area ≤ 0 ∨
        (0 < o.window_area ∧ o.surface_area ≤ o.window_area))) ∧
    (∀ e, get_single_zone_test_building o = Except.error e →
      ∃ msg, e = BuildError.InvalidConfiguration msg) := by
  by_cases h1 : o.zone_volume ≤ 0
  · refine ⟨⟨fun _ => Or.inl h1, fun _ => ⟨_, build_fail_zone_volume o h1⟩⟩, ?_⟩
    intro e he
    rw [build_fail_zone_volume o h1] at he
    simp only [Except.error.injEq] at he
    exact ⟨_, he.symm⟩
  · have hz : 0 < o.zone_volume := lt_of_not_le h1
    by_cases h2 : o.surface_area ≤ 0
    · refine ⟨⟨fun _ => Or.inr (Or.inl h2),
        fun _ => ⟨_, build_fail_surface_area o hz h2⟩⟩, ?_⟩
      intro e he
      rw [build_fail_surface_area o hz h2] at he
      simp only [Except.error.injEq] at he
      exact ⟨_, he.symm⟩
    · have hs : 0 < o.surface_area := lt_of_not_le h2
      by_cases h3 : 0 < o.window_area ∧ o.surface_area ≤ o.window_area
      · refine ⟨⟨fun _ => Or.inr (Or.inr h3),
          fun _ => ⟨_, build_fail_window_area o hz hs h3.1 h3.2⟩⟩, ?_⟩
        intro e he
        rw [build_fail_window_area o hz hs h3.1 h3.2] at he
        simp only [Except.error.injEq] at he
        exact ⟨_, he.symm⟩
      · have hok : ∃ m h, get_single_zone_test_building o = Except.ok (m, h) := by
          by_cases hw : 0 < o.window_area
          · have hws : o.window_area < o.surface_area :=
              lt_of_not_le fun hc => h3 ⟨hw, hc⟩
            exact ⟨_, _, build_eval_window o hz hs hw hws⟩
          · exact ⟨_, _, build_eval_no_window o hz hs (not_lt.mp hw)⟩
        obtain ⟨m, hd, hmk⟩ := hok
        constructor
        · rw [hmk]
          constructor
          · rintro ⟨e, he⟩
            simp at he
          · rintro (hc | hc | hc)
            · exact absurd hc h1
            · exact absurd hc h2
            · exact absurd hc h3
        · intro e he
          rw [hmk] at he
          simp at he

/-- C5 as stated is false: with valid volume and surface and the default
(empty) layer list, the build succeeds and its model holds a construction
with an empty material list — no emptiness check exists in the builder. -/
theorem C5_counterexample :
    ∃ m h, get_single_zone_test_building noLayerOptions = Except.ok (m, h) ∧
      m.constructions = [{ name := "the construction", materials := [] }] := by
  refine ⟨_, _, build_eval_no_window noLayerOptions
    (by norm_num [noLayerOptions, SingleZoneTestBuildingOptions.default])
    (by norm_num [noLayerOptions, SingleZoneTestBuildingOptions.default])
    (by norm_num [noLayerOptions, SingleZoneTestBuildingOptions.default]), ?_⟩
  norm_num [modelResultNoWindow, constructionResult, noLayerOptions,
    SingleZoneTestBuildingOptions.default]

/-- C5 (amended): the builder performs no emptiness check on the configured
layer list: with a positive volume and surface, no window, and an empty
layer list, the build succeeds and the model's sole construction has an
empty material list (and the model holds no material at all). -/
theorem C5_empty_layers_accepted (o : SingleZoneTestBuildingOptions)
    (hz : 0 < o.zone_volume) (hs : 0 < o.surface_area)
    (hw : o.window_area ≤ 0) (hc : o.construction = []) :
    ∃ m h, get_single_zone_test_building o = Except.ok (m, h) ∧
      m.constructions = [{ name := "the construction", materials := [] }] ∧
      m.materials = [] := by
  refine ⟨_, _, build_eval_no_window o hz hs hw, ?_, ?_⟩
  · simp [modelResultNoWindow, constructionResult, hc]
  · simp [modelResultNoWindow, materialsResult, hc]

/-- Witness for the amended C5 at the concrete empty-layer input. -/
theorem C5_empty_layers_accepted_witness :
    ∃ m h, get_single_zone_test_building noLayerOptions = Except.ok (m, h) ∧
      m.constructions = [{ name := "the construction", materials := [] }] ∧
      m.materials = [] :=
  C5_empty_layers_accepted noLayerOptions
    (by norm_num [noLayerOptions, SingleZoneTestBuildingOptions.default])
    (by norm_num [noLayerOptions, SingleZoneTestBuildingOptions.default])
    (by norm_num [noLayerOptions, SingleZoneTestBuildingOptions.default])
    (by norm_num [noLayerOptions, SingleZoneTestBuildingOptions.default])

/-- C6 (amended: the rectangle's x-extent is centered on 0 but its z-extent
runs from 0 to `2 l`, so its center is `(0, 0, l)`, not the origin — see the
counterexample): for every successful build, the wall polygon's outer loop
is the axis-aligned rectangle `wallLoop (sqrt (surface_area / 4))` in the
single fixed plane `y = 0`, its area equals `surface_area`, and it consists
of exactly four ordered points marked closed. -/
theorem C6_wall_rectangle (o : SingleZoneTestBuildingOptions)
    (hz : 0 < o.zone_volume) (hs : 0 < o.surface_area)
    (hwin : o.window_area ≤ 0 ∨ o.window_area < o.surface_area) :
    ∃ m h s, get_single_zone_test_building o = Except.ok (m, h) ∧ m.surfaces = [s] ∧
      s.polygon.outer = wallLoop (Real.sqrt (o.surface_area / 4)) ∧
      s.polygon.outer.area = o.surface_area ∧
      s.polygon.outer.vertices.length = 4 ∧ s.polygon.outer.closed = true ∧
      (∀ q ∈ s.polygon.outer.vertices, q.y = 0) := by
  have harea : (wallLoop (wallL o)).area = o.surface_area := wall_area_eq o hs.le
  by_cases hw : o.window_area ≤ 0
  · exact ⟨_, _, _, build_eval_no_window o hz hs hw, rfl, rfl, harea, rfl, rfl,
      by simp [surfaceResult, wallPolygon, wallLoop, wallL, Point3D.new]⟩
  · have hw0 : 0 < o.window_area := lt_of_not_le hw
    have hws : o.window_area < o.surface_area := (hwin.resolve_left hw)
    exact ⟨_, _, _, build_eval_window o hz hs hw0 hws, rfl, rfl, harea, rfl, rfl,
      by simp [surfaceResult, holedWallPolygon, wallLoop, wallL, Point3D.new]⟩

/-- Witness for the amended C6 at the repository's test input. -/
theorem C6_wall_rectangle_witness :
    ∃ m h s, get_single_zone_test_building testOptions = Except.ok (m, h) ∧
      m.surfaces = [s] ∧
      s.polygon.outer = wallLoop (Real.sqrt (testOptions.surface_area / 4)) ∧
      s.polygon.outer.area = testOptions.surface_area ∧
      s.polygon.outer.vertices.length = 4 ∧ s.polygon.outer.closed = true ∧
      (∀ q ∈ s.polygon.outer.vertices, q.y = 0) :=
  C6_wall_rectangle testOptions
    (by norm_num [testOptions, SingleZoneTestBuildingOptions.default])
    (by norm_num [testOptions, SingleZoneTestBuildingOptions.default])
    (Or.inr (by norm_num [testOptions, SingleZoneTestBuildingOptions.default]))

/-- C6 as stated ("centered at the origin") is false at `surface_area = 4`:
the built wall loop's vertex z-coordinates sum to 4 (the vertices are at
z = 0 and z = 2, so the loop's center is (0, 0, 1)), while a vertex set
centered at the origin would have coordinate sum 0. -/
theorem C6_counterexample :
    ∃ m h s, get_single_zone_test_building noLayerOptions = Except.ok (m, h) ∧
      m.surfaces = [s] ∧
      (s.polygon.outer.vertices.map Point3D.z).sum = 4 ∧ (4 : ℝ) ≠ 0 := by
  have h1 : Real.sqrt (noLayerOptions.surface_area / 4) = 1 := by
    norm_num [noLayerOptions, SingleZoneTestBuildingOptions.default]
  refine ⟨_, _, _, build_eval_no_window noLayerOptions
    (by norm_num [noLayerOptions, SingleZoneTestBuildingOptions.default])
    (by norm_num [noLayerOptions, SingleZoneTestBuildingOptions.default])
    (by norm_num [noLayerOptions, SingleZoneTestBuildingOptions.default]),
    rfl, ?_, by norm_num⟩
  show ((surfaceResult (wallPolygon noLayerOptions)).polygon.outer.vertices.map
    Point3D.z).sum = 4
  simp only [surfaceResult, wallPolygon, wallLoop, wallL, h1, Point3D.new]
  norm_num

/-- C7: for every `surface_area > 0` and `0 < window_area < surface_area`,
every vertex of the inner window loop lies strictly inside the outer wall
loop — strictly on the interior side of each of its edges, so neither
touching nor crossing the boundary — and the hole-cut operation succeeds
(its error branch is not taken). -/
theorem C7_window_inside_wall (sa wa : ℝ)
    (hs : 0 < sa) (hw0 : 0 < wa) (hws : wa < sa) :
    (∀ q ∈ (windowLoop (Real.sqrt (wa / 4))).vertices,
      strictlyInside q (wallLoop (Real.sqrt (sa / 4)))) ∧
    Polygon3D.cut_hole (Polygon3D.mk (wallLoop (Real.sqrt (sa / 4))) [])
        (windowLoop (Real.sqrt (wa / 4))) =
      Except.ok (Polygon3D.mk (wallLoop (Real.sqrt (sa / 4)))
        [windowLoop (Real.sqrt (wa / 4))]) := by
  have hW : 0 < Real.sqrt (wa / 4) := Real.sqrt_pos.mpr (by linarith)
  have hWL : Real.sqrt (wa / 4) < Real.sqrt (sa / 4) :=
    Real.sqrt_lt_sqrt (by linarith) (by linarith)
  have hin := windowLoop_inside _ _ hW hWL
  exact ⟨hin, cut_hole_ok _ _ _ rfl hin⟩

/-- Witness for C7 at the repository's test geometry (surface 4, window 1). -/
theorem C7_window_inside_wall_witness :
    (∀ q ∈ (windowLoop (Real.sqrt ((1 : ℝ) / 4))).vertices,
      strictlyInside q (wallLoop (Real.sqrt ((4 : ℝ) / 4)))) ∧
    Polygon3D.cut_hole (Polygon3D.mk (wallLoop (Real.sqrt ((4 : ℝ) / 4))) [])
        (windowLoop (Real.sqrt ((1 : ℝ) / 4))) =
      Except.ok (Polygon3D.mk (wallLoop (Real.sqrt ((4 : ℝ) / 4)))
        [windowLoop (Real.sqrt ((1 : ℝ) / 4))]) :=
  C7_window_inside_wall 4 1 (by norm_num) (by norm_num) (by norm_num)

/-- C8: in every successful build, the sole construction holds exactly one
material handle per configured layer in input order (`List.range`), the
material table has one entry per layer, a layer `Concrete t` at position `i`
yields material "Material i" of thickness `t` on substance handle 0 and a
layer `Polyurethane t` one on substance handle 1, and the substance table
holds exactly the one shared concrete substance (handle 0) and the one
shared polyurethane substance (handle 1) — materials of the same kind
reference the same substance instance. -/
theorem C8_construction_assembly (o : SingleZoneTestBuildingOptions)
    (hz : 0 < o.zone_volume) (hs : 0 < o.surface_area)
    (hwin : o.window_area ≤ 0 ∨ o.window_area < o.surface_area) :
    ∃ m h c, get_single_zone_test_building o = Except.ok (m, h) ∧
      m.constructions = [c] ∧
      c.materials = List.range o.construction.length ∧
      m.materials.length = o.construction.length ∧
      (∀ (i : Nat) (t : ℝ), o.construction[i]? = some (TestMat.Concrete t) →
        m.materials[i]? = some (Material.new ("Material " ++ toString i) 0 t)) ∧
      (∀ (i : Nat) (t : ℝ), o.construction[i]? = some (TestMat.Polyurethane t) →
        m.materials[i]? = some (Material.new ("Material " ++ toString i) 1 t)) ∧
      m.substances = [concreteResult o, polyurethaneResult o] := by
  have hlen : (materialsResult o).length = o.construction.length := by
    simp [materialsResult, List.enum_length]
  have hcon : ∀ (i : Nat) (t : ℝ), o.construction[i]? = some (TestMat.Concrete t) →
      (materialsResult o)[i]? = some (Material.new ("Material " ++ toString i) 0 t) := by
    intro i t hit
    simp [materialsResult, List.getElem?_map, List.getElem?_enum, hit, materialFor]
  have hpol : ∀ (i : Nat) (t : ℝ), o.construction[i]? = some (TestMat.Polyurethane t) →
      (materialsResult o)[i]? = some (Material.new ("Material " ++ toString i) 1 t) := by
    intro i t hit
    simp [materialsResult, List.getElem?_map, List.getElem?_enum, hit, materialFor]
  by_cases hw : o.window_area ≤ 0
  · exact ⟨_, _, _, build_eval_no_window o hz hs hw, rfl, rfl, hlen, hcon, hpol, rfl⟩
  · have hw0 : 0 < o.window_area := lt_of_not_le hw
    have hws : o.window_area < o.surface_area := hwin.resolve_left hw
    exact ⟨_, _, _, build_eval_window o hz hs hw0 hws, rfl, rfl, hlen, hcon, hpol, rfl⟩

/-- Witness for C8 at a three-layer construction (concrete, polyurethane,
concrete: the two concrete layers share substance handle 0). -/
theorem C8_construction_assembly_witness :
    ∃ m h c, get_single_zone_test_building layeredOptions = Except.ok (m, h) ∧
      m.constructions = [c] ∧
      c.materials = List.range layeredOptions.construction.length ∧
      m.materials.length = layeredOptions.construction.length ∧
      (∀ (i : Nat) (t : ℝ), layeredOptions.construction[i]? = some (TestMat.Concrete t) →
        m.materials[i]? = some (Material.new ("Material " ++ toString i) 0 t)) ∧
      (∀ (i : Nat) (t : ℝ), layeredOptions.construction[i]? = some (TestMat.Polyurethane t) →
        m.materials[i]? = some (Material.new ("Material " ++ toString i) 1 t)) ∧
      m.substances = [concreteResult layeredOptions, polyurethaneResult layeredOptions] :=
  C8_construction_assembly layeredOptions
    (by norm_num [layeredOptions, testOptions, SingleZoneTestBuildingOptions.default])
    (by norm_num [layeredOptions, testOptions, SingleZoneTestBuildingOptions.default])
    (Or.inr (by norm_num [layeredOptions, testOptions, SingleZoneTestBuildingOptions.default]))

/-- C10: a negative value of each optional field independently silently
disables the corresponding feature, in every configuration (mixed signs
included): whenever the build can otherwise succeed (positive volume and
surface, and — for the fields checked after the window — a window that is
absent or smaller than the surface), a strictly negative `window_area`
yields no fenestration, a strictly negative `heating_power` no heater, a
strictly negative `lighting_power` no luminaire, and a strictly negative
`infiltration_rate` a space with no infiltration; in each case the build
succeeds, so no error is raised for the negative value. -/
theorem C10_negative_values_disable (o : SingleZoneTestBuildingOptions)
    (hz : 0 < o.zone_volume) (hs : 0 < o.surface_area) :
    (o.window_area < 0 →
      ∃ m h, get_single_zone_test_building o = Except.ok (m, h) ∧ m.fenestrations = []) ∧
    (o.heating_power < 0 → (o.window_area ≤ 0 ∨ o.window_area < o.surface_area) →
      ∃ m h, get_single_zone_test_building o = Except.ok (m, h) ∧ m.hvacs = []) ∧
    (o.lighting_power < 0 → (o.window_area ≤ 0 ∨ o.window_area < o.surface_area) →
      ∃ m h, get_single_zone_test_building o = Except.ok (m, h) ∧ m.luminaires = []) ∧
    (o.infiltration_rate < 0 → (o.window_area ≤ 0 ∨ o.window_area < o.surface_area) →
      ∃ m h, get_single_zone_test_building o = Except.ok (m, h) ∧
        ∃ sp, m.spaces = [sp] ∧ sp.infiltration = none) := by
  refine ⟨?_, ?_, ?_, ?_⟩
  · intro hw
    exact ⟨_, _, build_eval_no_window o hz hs hw.le, rfl⟩
  · intro hh hwin
    by_cases hw : o.window_area ≤ 0
    · exact ⟨_, _, build_eval_no_window o hz hs hw,
        by simp [modelResultNoWindow, not_lt.mpr hh.le]⟩
    · exact ⟨_, _, build_eval_window o hz hs (lt_of_not_le hw) (hwin.resolve_left hw),
        by simp [modelResultWindow, not_lt.mpr hh.le]⟩
  · intro hl hwin
    by_cases hw : o.window_area ≤ 0
    · exact ⟨_, _, build_eval_no_window o hz hs hw,
        by simp [modelResultNoWindow, not_lt.mpr hl.le]⟩
    · exact ⟨_, _, build_eval_window o hz hs (lt_of_not_le hw) (hwin.resolve_left hw),
        by simp [modelResultWindow, not_lt.mpr hl.le]⟩
  · intro hi hwin
    by_cases hw : o.window_area ≤ 0
    · exact ⟨_, _, build_eval_no_window o hz hs hw, spaceResult o, rfl,
        by simp [spaceResult, not_lt.mpr hi.le]⟩
    · exact ⟨_, _, build_eval_window o hz hs (lt_of_not_le hw) (hwin.resolve_left hw),
        spaceResult o, rfl, by simp [spaceResult, not_lt.mpr hi.le]⟩

/-- Witness for C10 at a concrete mixed-sign input: the window, lighting and
infiltration fields negative while a 1500 W heater is requested — each
negative field's conclusion applies, independently of the others' signs. -/
theorem C10_negative_values_disable_witness :
    (mixedSignOptions.window_area < 0 →
      ∃ m h, get_single_zone_test_building mixedSignOptions = Except.ok (m, h) ∧
        m.fenestrations = []) ∧
    (mixedSignOptions.heating_power < 0 →
      (mixedSignOptions.window_area ≤ 0 ∨
        mixedSignOptions.window_area < mixedSignOptions.surface_area) →
      ∃ m h, get_single_zone_test_building mixedSignOptions = Except.ok (m, h) ∧
        m.hvacs = []) ∧
    (mixedSignOptions.lighting_power < 0 →
      (mixedSignOptions.window_area ≤ 0 ∨
        mixedSignOptions.window_area < mixedSignOptions.surface_area) →
      ∃ m h, get_single_zone_test_building mixedSignOptions = Except.ok (m, h) ∧
        m.luminaires = []) ∧
    (mixedSignOptions.infiltration_rate < 0 →
      (mixedSignOptions.window_area ≤ 0 ∨
        mixedSignOptions.window_area < mixedSignOptions.surface_area) →
      ∃ m h, get_single_zone_test_building mixedSignOptions = Except.ok (m, h) ∧
        ∃ sp, m.spaces = [sp] ∧ sp.infiltration = none) :=
  C10_negative_values_disable mixedSignOptions
    (by norm_num [mixedSignOptions, SingleZoneTestBuildingOptions.default])
    (by norm_num [mixedSignOptions, SingleZoneTestBuildingOptions.default])
